import Mathlib

/-!
Verification development for the `line_chart_v2` charting library
(`tensorboard/webapp/widgets/line_chart_v2`): a shallow embedding of the
`Chart` controller (`lib/chart.ts`), its option types (`lib/chart_types.ts`)
and the owning `LineChartComponent` (line_chart_component.ts), together with
theorems about redraw scheduling, metadata merging, view-box handling and
`niceDomain`.

Conventions of the embedding:
* JS numbers are modelled as `ℚ` (the code performs only field arithmetic
  and comparisons on them).
* A JS object used as a map (`DataSeriesMetadataMap`) is an association
  list in insertion order; property update keeps the position of an
  existing key and appends a fresh key, as JS objects do.
* `requestAnimationFrame` scheduling is modelled explicitly: `scheduleRedraw`
  increments a queue counter when it queues a callback, and `runFrame` fires
  one queued callback (the body `() => { this.redraw(); this.shouldRedraw =
  false; }` of `chart.ts`).  The `onDrawEnd` callback may itself mutate the
  chart, so `redraw` takes the callback as a state transformer.
-/

namespace LineChartV2

/-- Embedding of `ScaleType` enum of `scale_types.ts`: the linear and the logarithmic
scale variants. -/
inductive ScaleType
  | LINEAR
  | LOG10
deriving DecidableEq, Repr

/-- Embedding of `RendererType` enum of `renderer/renderer_types.ts`. -/
inductive RendererType
  | SVG
  | WEBGL
deriving DecidableEq, Repr

/-- A point of a data series (`internal_types.ts`). -/
structure DataPoint where
  x : ℚ
  y : ℚ
deriving DecidableEq, Repr

/-- A data series: identity is `id`, points in draw order (`internal_types.ts`). -/
structure DataSeries where
  id : String
  points : List DataPoint
deriving DecidableEq, Repr

/-- Per-series metadata (`internal_types.ts`): display name, visibility,
color and opacity. -/
structure DataSeriesMetadata where
  id : String
  displayName : String
  visible : Bool
  color : String
  opacity : ℚ
deriving DecidableEq, Repr

/-- The JS object mapping series id to metadata, as an association list in
insertion order. -/
abbrev DataSeriesMetadataMap := List (String × DataSeriesMetadata)

/-- Property read `map[id]` on a JS object: first (only) entry with the key. -/
def mmLookup : DataSeriesMetadataMap → String → Option DataSeriesMetadata
  | [], _ => none
  | (k, v) :: rest, id => if k = id then some v else mmLookup rest id

/-- Replace the value of every entry whose key is `id`, keeping its
position (no key occurs twice in a JS object). -/
def mmReplace : DataSeriesMetadataMap → String → DataSeriesMetadata → DataSeriesMetadataMap
  | [], _, _ => []
  | (k, w) :: rest, id, v => (if k = id then (id, v) else (k, w)) :: mmReplace rest id v

/-- Property write `map[id] = v` on a JS object: replace in place when the
key exists, append otherwise. -/
def mmInsert (m : DataSeriesMetadataMap) (id : String) (v : DataSeriesMetadata) :
    DataSeriesMetadataMap :=
  if (mmLookup m id).isSome then mmReplace m id v
  else m ++ [(id, v)]

/-- The value the JS object holds for `id` after all writes of `m` were
performed in order: the last entry of `m` with that key. -/
def mmLookupLast : List (String × DataSeriesMetadata) → String → Option DataSeriesMetadata
  | [], _ => none
  | (k, v) :: rest, id =>
    match mmLookupLast rest id with
    | some w => some w
    | none => if k = id then some v else none

/-- The keys of the metadata map are pairwise distinct (always true of a JS
object, whose properties are unique). -/
def keysNodup (m : DataSeriesMetadataMap) : Prop := (m.map Prod.fst).Nodup

instance (m : DataSeriesMetadataMap) : Decidable (keysNodup m) := by
  unfold keysNodup; infer_instance

/-- An x/y extent (`internal_types.ts`): `{x: [min, max], y: [min, max]}`. -/
structure Extent where
  x : ℚ × ℚ
  y : ℚ × ℚ
deriving DecidableEq, Repr

/-- A rect in some coordinate system (`internal_types.ts`). -/
structure Rect where
  x : ℚ
  y : ℚ
  width : ℚ
  height : ℚ
deriving DecidableEq, Repr

/-- A width/height dimension (`internal_types.ts`). -/
structure Dimension where
  width : ℚ
  height : ℚ
deriving DecidableEq, Repr

/-- What one committed draw of `Chart.redraw` reflects: the inputs the
`SeriesLineView` and the `Coordinator` hold at draw time (`chart.ts`,
`redraw` → `seriesLineView.internalOnlyDrawFrame(); renderer.flush()`). -/
structure Frame where
  seriesData : List DataSeries
  metadataMap : DataSeriesMetadataMap
  viewBox : Rect
  domRect : Rect
  xScaleType : ScaleType
  yScaleType : ScaleType
deriving DecidableEq, Repr

/-- State of one `Chart` instance (`chart.ts`) together with its scheduling
environment.  `queuedFrames` counts `requestAnimationFrame` callbacks that
were queued and have not fired yet; `committedFrames` records every frame
drawn so far (most recent first); `onDrawEndCount` counts invocations of
the completion callback; `rendererDisposed` records whether the renderer's
backend resources were released. -/
structure ChartState where
  rendererType : RendererType
  usesThreeCoordinator : Bool
  xScaleType : ScaleType
  yScaleType : ScaleType
  domRect : Rect
  viewBox : Rect
  seriesData : List DataSeries
  metadataMap : DataSeriesMetadataMap
  paintDirty : Bool
  shouldRedraw : Bool
  queuedFrames : Nat
  committedFrames : List Frame
  onDrawEndCount : Nat
  rendererDisposed : Bool
deriving DecidableEq, Repr

/-- Embedding of `Chart.scheduleRedraw` (chart.ts:134-143): early-return when
`shouldRedraw` is set, otherwise set it and queue one animation-frame
callback. -/
def scheduleRedraw (s : ChartState) : ChartState :=
  if s.shouldRedraw then s
  else { s with shouldRedraw := true, queuedFrames := s.queuedFrames + 1 }

/-- Embedding of `Chart.setXScaleType` (chart.ts:76-78): `coordinator.setXScale(createScale(type))`.
The swapped-in scale is determined by its `ScaleType`; no redraw is scheduled. -/
def setXScaleType (t : ScaleType) (s : ChartState) : ChartState :=
  { s with xScaleType := t }

/-- Embedding of `Chart.setYScaleType` (chart.ts:80-82). -/
def setYScaleType (t : ScaleType) (s : ChartState) : ChartState :=
  { s with yScaleType := t }

/-- Embedding of `Chart.resize` (chart.ts:84-93): set the coordinator's DOM container
rect (and the renderer surface and the series view layout to the same
rect), then schedule a redraw. -/
def resize (dim : Dimension) (s : ChartState) : ChartState :=
  scheduleRedraw { s with domRect := ⟨0, 0, dim.width, dim.height⟩ }

/-- The `forEach` loop body of `Chart.updateMetadata` (chart.ts:97-109):
walk the entries of the argument map, accumulate `shouldRepaint`, and merge
each entry into the internal map. -/
def updateMetadataLoop (acc : DataSeriesMetadataMap) (shouldRepaint : Bool) :
    List (String × DataSeriesMetadata) → DataSeriesMetadataMap × Bool
  | [] => (acc, shouldRepaint)
  | (id, metadata) :: rest =>
    let repaint := shouldRepaint ||
      (match mmLookup acc id with
       | none => true
       | some existing =>
         metadata.color != existing.color || metadata.visible != existing.visible ||
           metadata.opacity != existing.opacity)
    updateMetadataLoop (mmInsert acc id metadata) repaint rest

/-- Embedding of `Chart.updateMetadata` (chart.ts:95-114): merge the entries, mark the
series view paint-dirty when any entry was new or changed its
color/visible/opacity, and schedule a redraw. -/
def updateMetadata (m : DataSeriesMetadataMap) (s : ChartState) : ChartState :=
  let merged := updateMetadataLoop s.metadataMap false m
  scheduleRedraw
    { s with
      metadataMap := merged.1
      paintDirty := if merged.2 then true else s.paintDirty }

/-- Embedding of `Chart.updateViewBox` (chart.ts:116-126): set the coordinator's view-box
rect, force paint-dirty, schedule a redraw. -/
def updateViewBox (e : Extent) (s : ChartState) : ChartState :=
  scheduleRedraw
    { s with
      viewBox := ⟨e.x.1, e.y.1, e.x.2 - e.x.1, e.y.2 - e.y.1⟩
      paintDirty := true }

/-- Embedding of `Chart.updateData` (chart.ts:128-131): replace the series view's data
and schedule a redraw. -/
def updateData (d : List DataSeries) (s : ChartState) : ChartState :=
  scheduleRedraw { s with seriesData := d }

/-- Embedding of `Chart.dispose` (chart.ts:74): the body is empty. -/
def dispose (s : ChartState) : ChartState := s

/-- The inputs a draw started in state `s` reflects. -/
def snapshot (s : ChartState) : Frame :=
  ⟨s.seriesData, s.metadataMap, s.viewBox, s.domRect, s.xScaleType, s.yScaleType⟩

/-- Embedding of `Chart.redraw` (chart.ts:145-149): draw the frame, flush, then invoke
`callbacks.onDrawEnd()`.  The callback may mutate the chart, so it is passed
as a state transformer `cb` and runs after the frame is committed. -/
def redraw (cb : ChartState → ChartState) (s : ChartState) : ChartState :=
  cb { s with
        committedFrames := snapshot s :: s.committedFrames
        onDrawEndCount := s.onDrawEndCount + 1 }

/-- Fire one queued `requestAnimationFrame` callback (chart.ts:139-142):
`() => { this.redraw(); this.shouldRedraw = false; }`.  When nothing is
queued this is a tick with no work. -/
def runFrame (cb : ChartState → ChartState) (s : ChartState) : ChartState :=
  if s.queuedFrames = 0 then s
  else
    let s1 := redraw cb { s with queuedFrames := s.queuedFrames - 1 }
    { s1 with shouldRedraw := false }

/-- A mutating public `Chart` operation that schedules a redraw (`updateData`,
`updateMetadata`, `updateViewBox`, `resize`). -/
inductive ChartOp
  | data (d : List DataSeries)
  | metadata (m : DataSeriesMetadataMap)
  | viewBox (e : Extent)
  | resizeTo (dim : Dimension)
deriving Repr

/-- Apply one mutating operation. -/
def applyOp (s : ChartState) : ChartOp → ChartState
  | .data d => updateData d s
  | .metadata m => updateMetadata m s
  | .viewBox e => updateViewBox e s
  | .resizeTo dim => resize dim s

/-- Apply a sequence of mutating operations, in order. -/
def applyOps (s : ChartState) (ops : List ChartOp) : ChartState :=
  ops.foldl applyOp s

/-! ## Chart construction (`chart.ts:41-72`, `chart_types.ts`)

At the TypeScript level `ChartOption` is a closed union keyed by
`RendererType`.  Type erasure means that at runtime any value may sit in
`option.type`; `RuntimeRendererKind` models the runtime view, with all
values outside the union collapsed into `unrecognized`. -/

/-- The runtime value found in `option.type`. -/
inductive RuntimeRendererKind
  | svg
  | webgl
  | unrecognized
deriving DecidableEq, Repr

/-- A thrown construction failure.  With an unrecognized `option.type` the
constructor's `switch` assigns neither `this.coordinator` nor
`this.renderer`, and the very next statement
(`this.setXScaleType(option.xScaleType)` → `this.coordinator.setXScale`)
throws a `TypeError` on the `undefined` coordinator, so the constructor
never returns an object. -/
inductive ConstructError
  | typeErrorUndefinedAccess
deriving DecidableEq, Repr

/-- The fields of `ChartOption` (chart_types.ts:30-48) the embedding uses,
with `type` at its runtime view.  The container handle and the callback
object have no observable structure here. -/
structure ChartOptionRuntime where
  type : RuntimeRendererKind
  domDimension : Dimension
  xScaleType : ScaleType
  yScaleType : ScaleType
  devicePixelRatio : ℚ
deriving Repr

/-- Embedding of `Chart` constructor (chart.ts:41-72): switch on `option.type` selecting
the Renderer/Coordinator pair (SVG → `SvgRenderer` + `Coordinator`,
WEBGL → `ThreeRenderer` + `ThreeCoordinator`), then `setXScaleType`,
`setYScaleType`, series-view creation and `resize(option.domDimension)`.
The initial rects are the defaults of the freshly built `Coordinator`. -/
def constructChart (opt : ChartOptionRuntime) : Except ConstructError ChartState :=
  let pair : Option (RendererType × Bool) :=
    match opt.type with
    | .svg => some (.SVG, false)
    | .webgl => some (.WEBGL, true)
    | .unrecognized => none
  match pair with
  | none => .error .typeErrorUndefinedAccess
  | some (rt, three) =>
    let s : ChartState :=
      { rendererType := rt
        usesThreeCoordinator := three
        xScaleType := opt.xScaleType
        yScaleType := opt.yScaleType
        domRect := ⟨0, 0, 0, 0⟩
        viewBox := ⟨0, 0, 1, 1⟩
        seriesData := []
        metadataMap := []
        paintDirty := false
        shouldRedraw := false
        queuedFrames := 0
        committedFrames := []
        onDrawEndCount := 0
        rendererDisposed := false }
    .ok (resize opt.domDimension (setYScaleType opt.yScaleType (setXScaleType opt.xScaleType s)))

/-! ## Scales (`niceDomain`)

`scale.ts` is not part of the provided sources (only its callers are), so
the two scale variants are modelled from the spec. -/

/-- Modelled from the spec: `scale.ts` (the linear scale's `niceDomain`) is
not among the provided sources.  Per the spec, `niceDomain` maps a raw data
extent to an expanded/rounded domain — "snapping to round numbers,
guaranteeing non-zero span" — deterministically and without side effects.
The model snaps the lower end down and the upper end up to integers and
widens a degenerate result by one unit on each side. -/
def niceDomainLinear (e : ℚ × ℚ) : ℚ × ℚ :=
  let lo : ℚ := (⌊e.1⌋ : ℤ)
  let hi : ℚ := (⌈e.2⌉ : ℤ)
  if lo = hi then (lo - 1, hi + 1) else (lo, hi)

/-- Modelled from the spec: `scale.ts` (the logarithmic-like scale's
`niceDomain`) is not among the provided sources.  The model snaps a
positive extent outward to powers of ten (round numbers of the log scale),
widening a degenerate result by one decade on each side; an extent that is
not positive is outside the log scale's domain and is returned unchanged. -/
def niceDomainLog10 (e : ℚ × ℚ) : ℚ × ℚ :=
  if 0 < e.1 then
    let lo : ℚ := (10 : ℚ) ^ (Int.log 10 e.1)
    let hi : ℚ := (10 : ℚ) ^ (Int.clog 10 e.2)
    if lo = hi then (lo / 10, hi * 10) else (lo, hi)
  else e

/-- Embedding of `createScale(type).niceDomain`: the `niceDomain` of the scale variant
selected by the scale-type enum. -/
def niceDomain : ScaleType → (ℚ × ℚ) → ℚ × ℚ
  | .LINEAR => niceDomainLinear
  | .LOG10 => niceDomainLog10

/-! ## The owning component (`LineChartComponent`, src/unnamed/part_000)

The component is modelled in its steady state, after `ngAfterViewInit`
created the `lineChart` (so the `if (!this.lineChart) return;` guards have
passed). -/

/-- Embedding of `DEFAULT_EXTENT` (part_000:55): the fixed unit extent. -/
def DEFAULT_EXTENT : Extent := ⟨(0, 1), (0, 1)⟩

/-- Embedding of `areExtentsEqual` (lib/utils.ts, used at part_000:228): structural
equality of extents. -/
def areExtentsEqual (a b : Extent) : Bool := a == b

/-- Modelled from the spec: `line_chart_internal_utils.ts`
(`computeDataSeriesExtent`) is not among the provided sources, only its
test.  Per the spec, the data extent is the min/max over the points of the
series whose metadata marks them visible (a series whose metadata entry is
missing is treated as not visible); with no such point there is no data
extent. -/
def computeDataSeriesExtent (data : List DataSeries) (meta : DataSeriesMetadataMap) :
    Option Extent :=
  let pts := (data.filter fun s =>
    match mmLookup meta s.id with
    | some m => m.visible
    | none => false).foldr (fun s acc => s.points ++ acc) []
  match pts with
  | [] => none
  | p :: rest =>
    some (rest.foldl
      (fun e q => ⟨(min e.x.1 q.x, max e.x.2 q.x), (min e.y.1 q.y, max e.y.2 q.y)⟩)
      ⟨(p.x, p.x), (p.y, p.y)⟩)

/-- State of one `LineChartComponent` in its steady state. -/
structure ComponentState where
  seriesData : List DataSeries
  seriesMetadataMap : DataSeriesMetadataMap
  defaultViewExtent : Option Extent
  xScaleType : ScaleType
  yScaleType : ScaleType
  viewExtent : Extent
  dataExtent : Option Extent
  isDataUpdated : Bool
  isMetadataUpdated : Bool
  isViewExtentUpdated : Bool
  isDefaultViewExtentUpdated : Bool
  maybeSetViewExtentToDefault : Bool
  lineChart : ChartState
deriving DecidableEq, Repr

/-- Embedding of `LineChartComponent.getDefaultViewExtent` (part_000:379-392), over its
inputs: an explicit caller default wins; otherwise the data extent niced
per axis; with no data extent, `DEFAULT_EXTENT`. -/
def getDefaultViewExtent (defaultViewExtent : Option Extent) (dataExtent : Option Extent)
    (xScaleType yScaleType : ScaleType) : Extent :=
  match defaultViewExtent with
  | some dve => dve
  | none =>
    match dataExtent with
    | none => DEFAULT_EXTENT
    | some d => ⟨niceDomain xScaleType d.x, niceDomain yScaleType d.y⟩

/-- Embedding of `this.getDefaultViewExtent()` on the component's own fields. -/
def getDefaultViewExtentC (s : ComponentState) : Extent :=
  getDefaultViewExtent s.defaultViewExtent s.dataExtent s.xScaleType s.yScaleType

/-- The `SimpleChanges` record of one `ngOnChanges` call: `some` marks an
input that changed and carries its new value. -/
structure SimpleChanges where
  xScaleType : Option ScaleType
  yScaleType : Option ScaleType
  seriesData : Option (List DataSeries)
  defaultViewExtent : Option (Option Extent)
  seriesMetadataMap : Option DataSeriesMetadataMap
deriving Repr

/-- Angular updates the `@Input()` fields before `ngOnChanges` runs. -/
def applyInputs (c : SimpleChanges) (s : ComponentState) : ComponentState :=
  { s with
    xScaleType := c.xScaleType.getD s.xScaleType
    yScaleType := c.yScaleType.getD s.yScaleType
    seriesData := c.seriesData.getD s.seriesData
    defaultViewExtent :=
      match c.defaultViewExtent with
      | some d => d
      | none => s.defaultViewExtent
    seriesMetadataMap := c.seriesMetadataMap.getD s.seriesMetadataMap }

/-- Embedding of `LineChartComponent.shouldResetViewExtent` (part_000:222-254), with
`prevMeta` the previous value of `seriesMetadataMap` (the fields of `s` are
already updated).  A scale-type change always resets; a manually changed
view box (current view extent differing from the resolved default) blocks
any reset; else a data change resets, and a metadata change resets when an
entry is new or flipped its visibility. -/
def shouldResetViewExtent (c : SimpleChanges) (prevMeta : DataSeriesMetadataMap)
    (s : ComponentState) : Bool :=
  if c.xScaleType.isSome || c.yScaleType.isSome then true
  else
    let prevDefaultExtent := getDefaultViewExtentC s
    let wasViewExtentChanged := !(areExtentsEqual prevDefaultExtent s.viewExtent)
    if wasViewExtentChanged then false
    else if c.seriesData.isSome then true
    else
      match c.seriesMetadataMap with
      | none => false
      | some _ =>
        s.seriesMetadataMap.any fun p =>
          match mmLookup prevMeta p.1 with
          | none => true
          | some prev => p.2.visible != prev.visible

/-- The metadata-copy loop of `updateProp` (part_000:333-337): keep only
the entries for ids present in the data.  (The host contract guarantees an
entry for every data id; an id with no entry contributes nothing.) -/
def copyRequiredMetadata (data : List DataSeries) (meta : DataSeriesMetadataMap) :
    DataSeriesMetadataMap :=
  data.foldl
    (fun acc ds =>
      match mmLookup meta ds.id with
      | some md => acc ++ [(ds.id, md)]
      | none => acc)
    []

/-- The metadata branch of `updateProp` (part_000:331-339). -/
def updatePropMeta (s : ComponentState) : ComponentState :=
  if s.isMetadataUpdated || s.isDataUpdated then
    { s with
      isMetadataUpdated := false
      lineChart :=
        updateMetadata (copyRequiredMetadata s.seriesData s.seriesMetadataMap) s.lineChart }
  else s

/-- The data branch of `updateProp` (part_000:341-344). -/
def updatePropData (s : ComponentState) : ComponentState :=
  if s.isDataUpdated then
    { s with isDataUpdated := false, lineChart := updateData s.seriesData s.lineChart }
  else s

/-- Embedding of `LineChartComponent.updateProp` (part_000:328-366).  The
`if (this.isDefaultViewExtentUpdated && this.defaultViewExtent)` branch
reads the default through `Option.getD` (it is `some` whenever the branch
is taken). -/
def updateProp (s : ComponentState) : ComponentState :=
  let s1 := updatePropData (updatePropMeta s)
  let viewExtentChange :=
    s1.isDefaultViewExtentUpdated || s1.isViewExtentUpdated || s1.maybeSetViewExtentToDefault
  let s2 :=
    if s1.isDefaultViewExtentUpdated && s1.defaultViewExtent.isSome then
      { s1 with viewExtent := s1.defaultViewExtent.getD s1.viewExtent }
    else if s1.maybeSetViewExtentToDefault then
      let s' := { s1 with
        dataExtent := computeDataSeriesExtent s1.seriesData s1.seriesMetadataMap }
      { s' with viewExtent := getDefaultViewExtentC s' }
    else s1
  if viewExtentChange then
    { s2 with
      isDefaultViewExtentUpdated := false
      isViewExtentUpdated := false
      maybeSetViewExtentToDefault := false
      lineChart := updateViewBox s2.viewExtent s2.lineChart }
  else s2

/-- The part of `LineChartComponent.ngOnChanges` (part_000:177-204) that
precedes the `shouldResetViewExtent` call: update the input fields,
recreate the scales and forward scale-type changes to the chart, raise the
update flags. -/
def ngOnChangesPre (c : SimpleChanges) (s0 : ComponentState) : ComponentState :=
  let s := applyInputs c s0
  let s :=
    match c.xScaleType with
    | some t => { s with lineChart := setXScaleType t s.lineChart }
    | none => s
  let s :=
    match c.yScaleType with
    | some t => { s with lineChart := setYScaleType t s.lineChart }
    | none => s
  let s := if c.seriesData.isSome then { s with isDataUpdated := true } else s
  let s :=
    if c.defaultViewExtent.isSome then { s with isDefaultViewExtentUpdated := true } else s
  if c.seriesMetadataMap.isSome then { s with isMetadataUpdated := true } else s

/-- Embedding of `LineChartComponent.ngOnChanges` (part_000:177-207): the preamble
above, then `maybeSetViewExtentToDefault = shouldResetViewExtent(changes)`
(whose `previousValue` for the metadata map is `s0`'s), then
`updateProp`. -/
def ngOnChanges (c : SimpleChanges) (s0 : ComponentState) : ComponentState :=
  let s := ngOnChangesPre c s0
  updateProp
    { s with
      maybeSetViewExtentToDefault := shouldResetViewExtent c s0.seriesMetadataMap s }

/-- Embedding of `LineChartComponent.onViewExtentChanged` (part_000:368-372): the
interactive layer reports a user pan/zoom. -/
def onViewExtentChanged (v : Extent) (s : ComponentState) : ComponentState :=
  updateProp { s with isViewExtentUpdated := true, viewExtent := v }

/-- Embedding of `LineChartComponent.onViewExtentReset` (part_000:374-377). -/
def onViewExtentReset (s : ComponentState) : ComponentState :=
  updateProp { s with maybeSetViewExtentToDefault := true }

/-! ## Concrete fixtures used by witnesses and counterexamples -/

/-- A quiescent chart: nothing scheduled, nothing queued, nothing drawn yet. -/
def chart0 : ChartState :=
  { rendererType := .SVG
    usesThreeCoordinator := false
    xScaleType := .LINEAR
    yScaleType := .LINEAR
    domRect := ⟨0, 0, 100, 50⟩
    viewBox := ⟨0, 0, 1, 1⟩
    seriesData := []
    metadataMap := []
    paintDirty := false
    shouldRedraw := false
    queuedFrames := 0
    committedFrames := []
    onDrawEndCount := 0
    rendererDisposed := false }

/-- A concrete data series. -/
def seriesA : DataSeries := ⟨"a", [⟨0, 0⟩, ⟨1, 1⟩]⟩

/-- A second value for the same series id. -/
def seriesA' : DataSeries := ⟨"a", [⟨0, 0⟩, ⟨1, 2⟩, ⟨2, 4⟩]⟩

/-- Concrete metadata for series `"a"`. -/
def mdA : DataSeriesMetadata := ⟨"a", "alpha", true, "#f00", 1⟩

/-! ## Scheduling lemmas -/

theorem scheduleRedraw_eq (s : ChartState) :
    scheduleRedraw s =
      { s with
        shouldRedraw := true
        queuedFrames := if s.shouldRedraw then s.queuedFrames else s.queuedFrames + 1 } := by
  unfold scheduleRedraw
  split
  · rename_i h
    cases s
    simp_all
  · simp

theorem applyOp_fields (s : ChartState) (op : ChartOp) :
    (applyOp s op).shouldRedraw = true ∧
      (applyOp s op).queuedFrames =
        (if s.shouldRedraw then s.queuedFrames else s.queuedFrames + 1) ∧
      (applyOp s op).committedFrames = s.committedFrames ∧
      (applyOp s op).onDrawEndCount = s.onDrawEndCount := by
  cases op <;>
    simp [applyOp, updateData, updateMetadata, updateViewBox, resize, scheduleRedraw_eq]

theorem applyOps_fields (ops : List ChartOp) (s : ChartState) (hne : ops ≠ []) :
    (applyOps s ops).shouldRedraw = true ∧
      (applyOps s ops).queuedFrames =
        (if s.shouldRedraw then s.queuedFrames else s.queuedFrames + 1) ∧
      (applyOps s ops).committedFrames = s.committedFrames ∧
      (applyOps s ops).onDrawEndCount = s.onDrawEndCount := by
  induction ops generalizing s with
  | nil => exact absurd rfl hne
  | cons op rest ih =>
    obtain ⟨h1, h2, h3, h4⟩ := applyOp_fields s op
    by_cases hr : rest = []
    · subst hr
      exact ⟨h1, h2, h3, h4⟩
    · have hstep : applyOps s (op :: rest) = applyOps (applyOp s op) rest := rfl
      obtain ⟨g1, g2, g3, g4⟩ := ih (applyOp s op) hr
      refine ⟨hstep ▸ g1, ?_, ?_, ?_⟩
      · rw [hstep, g2, h1]
        simp [h2]
      · rw [hstep, g3, h3]
      · rw [hstep, g4, h4]

theorem runFrame_of_queue_empty (cb : ChartState → ChartState) (s : ChartState)
    (h : s.queuedFrames = 0) : runFrame cb s = s := by
  unfold runFrame
  simp [h]

theorem applyOp_queuedFrames_of_inflight (t : ChartState) (op : ChartOp)
    (h : t.shouldRedraw = true) : (applyOp t op).queuedFrames = t.queuedFrames := by
  obtain ⟨_, a2, _, _⟩ := applyOp_fields t op
  rw [a2, h]
  simp

theorem applyOp_committedFrames (t : ChartState) (op : ChartOp) :
    (applyOp t op).committedFrames = t.committedFrames :=
  (applyOp_fields t op).2.2.1

theorem applyOp_onDrawEndCount (t : ChartState) (op : ChartOp) :
    (applyOp t op).onDrawEndCount = t.onDrawEndCount :=
  (applyOp_fields t op).2.2.2

/-- C1: for every nonempty sequence of `updateData`/`updateMetadata`/
`updateViewBox`/`resize` calls on a quiescent chart within one
animation-frame tick, no frame is committed while the calls run, the tick
commits exactly one frame, that frame reflects the final state of all
inputs at draw time, `onDrawEnd` runs exactly once for it, and a further
tick does nothing. -/
theorem chart_coalesces_to_single_redraw (s : ChartState) (ops : List ChartOp)
    (hflag : s.shouldRedraw = false) (hq : s.queuedFrames = 0) (hne : ops ≠ []) :
    (applyOps s ops).committedFrames = s.committedFrames ∧
      (runFrame id (applyOps s ops)).committedFrames =
        snapshot (applyOps s ops) :: s.committedFrames ∧
      (runFrame id (applyOps s ops)).onDrawEndCount = s.onDrawEndCount + 1 ∧
      runFrame id (runFrame id (applyOps s ops)) = runFrame id (applyOps s ops) := by
  obtain ⟨h1, h2, h3, h4⟩ := applyOps_fields ops s hne
  rw [hflag, hq] at h2
  simp only [Bool.false_eq_true, if_false, Nat.zero_add] at h2
  refine ⟨h3, ?_, ?_, ?_⟩
  · simp [runFrame, h2, redraw, snapshot, h3]
  · simp [runFrame, h2, redraw, h4]
  · apply runFrame_of_queue_empty
    simp [runFrame, h2, redraw]

/-- Witness for C1 at a concrete input: two mutating calls in one tick. -/
theorem chart_coalesces_to_single_redraw_witness :
    (applyOps chart0 [ChartOp.data [seriesA], ChartOp.viewBox ⟨(0, 2), (0, 3)⟩]).committedFrames =
        chart0.committedFrames ∧
      (runFrame id
            (applyOps chart0
              [ChartOp.data [seriesA], ChartOp.viewBox ⟨(0, 2), (0, 3)⟩])).committedFrames =
        snapshot (applyOps chart0 [ChartOp.data [seriesA], ChartOp.viewBox ⟨(0, 2), (0, 3)⟩]) ::
          chart0.committedFrames ∧
      (runFrame id
            (applyOps chart0
              [ChartOp.data [seriesA], ChartOp.viewBox ⟨(0, 2), (0, 3)⟩])).onDrawEndCount =
        chart0.onDrawEndCount + 1 ∧
      runFrame id
          (runFrame id
            (applyOps chart0 [ChartOp.data [seriesA], ChartOp.viewBox ⟨(0, 2), (0, 3)⟩])) =
        runFrame id
          (applyOps chart0 [ChartOp.data [seriesA], ChartOp.viewBox ⟨(0, 2), (0, 3)⟩]) :=
  chart_coalesces_to_single_redraw chart0
    [ChartOp.data [seriesA], ChartOp.viewBox ⟨(0, 2), (0, 3)⟩] rfl rfl
    (List.cons_ne_nil _ _)

/-- The state after the scheduled animation frame fired while its
`onDrawEnd` callback performed `updateData [seriesA']`. -/
def c2state : ChartState :=
  runFrame (fun t => applyOp t (ChartOp.data [seriesA'])) (updateData [seriesA] chart0)

/-- Counterexample to C2 as stated: on a chart whose only scheduled frame
fires while `onDrawEnd` mutates the data, the mutation lands in the state
(`seriesData = [seriesA']`) but `scheduleRedraw` saw the still-set in-flight
flag and queued nothing: afterwards the queue is empty, the flag is clear, a
further tick changes nothing, and the only committed frame holds the old
data — the mutation is dropped, no next frame is scheduled. -/
theorem mutation_during_draw_not_rescheduled_cex :
    c2state.seriesData = [seriesA'] ∧
      c2state.queuedFrames = 0 ∧
      c2state.shouldRedraw = false ∧
      runFrame id c2state = c2state ∧
      c2state.committedFrames.map Frame.seriesData = [[seriesA]] := by
  decide

/-- C2 (amended): the in-flight flag is cleared only after the frame's draw
completes, and a mutating call that occurs during the draw (for example
from within `onDrawEnd`) does NOT schedule a next frame — `scheduleRedraw`
returns early on the still-set flag — so the mutation is dropped until some
later call schedules a redraw; it is never double-drawn in the same frame
(exactly one frame is committed and `onDrawEnd` runs once). -/
theorem inflight_flag_cleared_after_draw_mutation_dropped (s : ChartState) (op : ChartOp)
    (hflag : s.shouldRedraw = true) (hq : s.queuedFrames = 1) :
    (runFrame (fun t => applyOp t op) s).shouldRedraw = false ∧
      (runFrame (fun t => applyOp t op) s).queuedFrames = 0 ∧
      (runFrame (fun t => applyOp t op) s).committedFrames = snapshot s :: s.committedFrames ∧
      (runFrame (fun t => applyOp t op) s).onDrawEndCount = s.onDrawEndCount + 1 ∧
      runFrame id (runFrame (fun t => applyOp t op) s) = runFrame (fun t => applyOp t op) s := by
  have hrun : runFrame (fun t => applyOp t op) s =
      { applyOp
          { s with
            queuedFrames := 0
            committedFrames := snapshot s :: s.committedFrames
            onDrawEndCount := s.onDrawEndCount + 1 } op with
        shouldRedraw := false } := by
    simp [runFrame, hq, redraw, snapshot]
  have hqueued :
      (applyOp
          { s with
            queuedFrames := 0
            committedFrames := snapshot s :: s.committedFrames
            onDrawEndCount := s.onDrawEndCount + 1 } op).queuedFrames = 0 := by
    rw [applyOp_queuedFrames_of_inflight
      { s with
        queuedFrames := 0
        committedFrames := snapshot s :: s.committedFrames
        onDrawEndCount := s.onDrawEndCount + 1 } op hflag]
  refine ⟨by rw [hrun], ?_, ?_, ?_, ?_⟩
  · rw [hrun]
    simpa using hqueued
  · rw [hrun]
    simpa using applyOp_committedFrames
      { s with
        queuedFrames := 0
        committedFrames := snapshot s :: s.committedFrames
        onDrawEndCount := s.onDrawEndCount + 1 } op
  · rw [hrun]
    simpa using applyOp_onDrawEndCount
      { s with
        queuedFrames := 0
        committedFrames := snapshot s :: s.committedFrames
        onDrawEndCount := s.onDrawEndCount + 1 } op
  · apply runFrame_of_queue_empty
    rw [hrun]
    simpa using hqueued

/-- Witness for the amended C2 at a concrete input. -/
theorem inflight_flag_cleared_after_draw_mutation_dropped_witness :
    (runFrame (fun t => applyOp t (ChartOp.data [seriesA']))
          (updateData [seriesA] chart0)).shouldRedraw = false ∧
      (runFrame (fun t => applyOp t (ChartOp.data [seriesA']))
            (updateData [seriesA] chart0)).queuedFrames = 0 ∧
      (runFrame (fun t => applyOp t (ChartOp.data [seriesA']))
            (updateData [seriesA] chart0)).committedFrames =
        snapshot (updateData [seriesA] chart0) ::
          (updateData [seriesA] chart0).committedFrames ∧
      (runFrame (fun t => applyOp t (ChartOp.data [seriesA']))
            (updateData [seriesA] chart0)).onDrawEndCount =
        (updateData [seriesA] chart0).onDrawEndCount + 1 ∧
      runFrame id
          (runFrame (fun t => applyOp t (ChartOp.data [seriesA']))
            (updateData [seriesA] chart0)) =
        runFrame (fun t => applyOp t (ChartOp.data [seriesA']))
          (updateData [seriesA] chart0) :=
  inflight_flag_cleared_after_draw_mutation_dropped (updateData [seriesA] chart0)
    (ChartOp.data [seriesA']) (by decide) (by decide)

/-- C3 (the code): `Chart.dispose` (chart.ts:74) has an empty body — it is
callable in any state and trivially idempotent, but it releases nothing:
the whole chart state, the renderer's resources included, is untouched. -/
theorem dispose_is_noop (s : ChartState) :
    dispose s = s ∧
      dispose (dispose s) = dispose s ∧
      (dispose s).rendererDisposed = s.rendererDisposed :=
  ⟨rfl, rfl, rfl⟩

/-- Counterexample to C4 as stated: on a concrete quiescent chart,
`setXScaleType`/`setYScaleType` swap the scale but leave the in-flight flag
unset and the frame queue empty — no redraw is scheduled. -/
theorem set_scale_type_schedules_no_redraw_cex :
    (setXScaleType .LOG10 chart0).xScaleType = .LOG10 ∧
      (setXScaleType .LOG10 chart0).shouldRedraw = false ∧
      (setXScaleType .LOG10 chart0).queuedFrames = 0 ∧
      runFrame id (setXScaleType .LOG10 chart0) = setXScaleType .LOG10 chart0 ∧
      (setYScaleType .LOG10 chart0).yScaleType = .LOG10 ∧
      (setYScaleType .LOG10 chart0).shouldRedraw = false ∧
      (setYScaleType .LOG10 chart0).queuedFrames = 0 := by
  decide

/-- C4 (amended): `setXScaleType` (resp. `setYScaleType`) recreates that
axis's scale and swaps it into the coordinator, but schedules no redraw:
the in-flight flag, the frame queue and the committed frames are untouched. -/
theorem set_scale_type_swaps_scale_without_redraw (t : ScaleType) (s : ChartState) :
    (setXScaleType t s).xScaleType = t ∧
      (setYScaleType t s).yScaleType = t ∧
      (setXScaleType t s).shouldRedraw = s.shouldRedraw ∧
      (setXScaleType t s).queuedFrames = s.queuedFrames ∧
      (setXScaleType t s).committedFrames = s.committedFrames ∧
      (setYScaleType t s).shouldRedraw = s.shouldRedraw ∧
      (setYScaleType t s).queuedFrames = s.queuedFrames ∧
      (setYScaleType t s).committedFrames = s.committedFrames :=
  ⟨rfl, rfl, rfl, rfl, rfl, rfl, rfl, rfl⟩

/-- C6: chart construction is a closed, exhaustive switch on the backend
kind: a recognized kind yields the matching Renderer/Coordinator pair
(SVG → `SvgRenderer` + `Coordinator`, WEBGL → `ThreeRenderer` +
`ThreeCoordinator`), and an unrecognized kind makes the constructor throw
(the `undefined` coordinator is dereferenced) — it never returns a chart
with a missing renderer or a partially initialized chart. -/
theorem chart_construction_exhaustive (opt : ChartOptionRuntime) :
    (∃ c, constructChart opt = .ok c ∧
        ((opt.type = .svg ∧ c.rendererType = .SVG ∧ c.usesThreeCoordinator = false) ∨
          (opt.type = .webgl ∧ c.rendererType = .WEBGL ∧ c.usesThreeCoordinator = true))) ∨
      (opt.type = .unrecognized ∧
        constructChart opt = .error .typeErrorUndefinedAccess) := by
  rcases opt with ⟨ty, dim, xs, ys, dpr⟩
  cases ty with
  | svg => exact .inl ⟨_, rfl, .inl ⟨rfl, rfl, rfl⟩⟩
  | webgl => exact .inl ⟨_, rfl, .inr ⟨rfl, rfl, rfl⟩⟩
  | unrecognized => exact .inr ⟨rfl, rfl⟩

/-! ## Metadata-map lemmas -/

theorem mmLookup_mmReplace_ne (m : DataSeriesMetadataMap) (id : String)
    (v : DataSeriesMetadata) (id' : String) (h : id ≠ id') :
    mmLookup (mmReplace m id v) id' = mmLookup m id' := by
  induction m with
  | nil => rfl
  | cons p rest ih =>
    obtain ⟨k, w⟩ := p
    simp only [mmReplace]
    by_cases hk : k = id
    · rw [if_pos hk]
      subst hk
      simp [mmLookup, h, ih]
    · rw [if_neg hk]
      simp [mmLookup, ih]

theorem mmLookup_mmReplace_self (m : DataSeriesMetadataMap) (id : String)
    (v : DataSeriesMetadata) (h : (mmLookup m id).isSome = true) :
    mmLookup (mmReplace m id v) id = some v := by
  induction m with
  | nil => simp [mmLookup] at h
  | cons p rest ih =>
    obtain ⟨k, w⟩ := p
    simp only [mmReplace]
    by_cases hk : k = id
    · rw [if_pos hk]
      simp [mmLookup]
    · rw [if_neg hk]
      simp only [mmLookup, if_neg hk] at h
      simp [mmLookup, hk, ih h]

theorem mmLookup_append (m₁ m₂ : DataSeriesMetadataMap) (id : String) :
    mmLookup (m₁ ++ m₂) id =
      match mmLookup m₁ id with
      | some v => some v
      | none => mmLookup m₂ id := by
  induction m₁ with
  | nil => simp [mmLookup]
  | cons p rest ih =>
    obtain ⟨k, w⟩ := p
    by_cases hk : k = id
    · simp [mmLookup, hk]
    · simp [mmLookup, hk, ih]

theorem mmLookup_mmInsert (m : DataSeriesMetadataMap) (id : String) (v : DataSeriesMetadata)
    (id' : String) :
    mmLookup (mmInsert m id v) id' = if id = id' then some v else mmLookup m id' := by
  unfold mmInsert
  split
  · rename_i hsome
    by_cases hi : id = id'
    · subst hi
      simp [mmLookup_mmReplace_self m id v hsome]
    · simp [hi, mmLookup_mmReplace_ne m id v id' hi]
  · rename_i hnone
    have hmnone : mmLookup m id = none := by
      cases hmm : mmLookup m id
      · rfl
      · rw [hmm] at hnone
        simp at hnone
    rw [mmLookup_append]
    by_cases hi : id = id'
    · subst hi
      simp [hmnone, mmLookup]
    · cases hmm : mmLookup m id' <;> simp [hmm, mmLookup, hi]

theorem updateMetadataLoop_fst_lookup (m : List (String × DataSeriesMetadata))
    (acc : DataSeriesMetadataMap) (b : Bool) (id : String) :
    mmLookup (updateMetadataLoop acc b m).1 id =
      match mmLookupLast m id with
      | some v => some v
      | none => mmLookup acc id := by
  induction m generalizing acc b with
  | nil => simp [updateMetadataLoop, mmLookupLast]
  | cons p rest ih =>
    obtain ⟨k, md⟩ := p
    simp only [updateMetadataLoop]
    rw [ih]
    simp only [mmLookupLast]
    cases h : mmLookupLast rest id
    · rw [mmLookup_mmInsert]
      by_cases hk : k = id <;> simp [hk]
    · simp

theorem updateMetadataLoop_snd_true (m : List (String × DataSeriesMetadata))
    (acc : DataSeriesMetadataMap) : (updateMetadataLoop acc true m).2 = true := by
  induction m generalizing acc with
  | nil => rfl
  | cons p rest ih =>
    obtain ⟨k, md⟩ := p
    simp only [updateMetadataLoop, Bool.true_or]
    exact ih _

theorem updateMetadataLoop_snd_of_changed (m : List (String × DataSeriesMetadata))
    (acc : DataSeriesMetadataMap) (b : Bool) (id : String) (md : DataSeriesMetadata)
    (hmem : (id, md) ∈ m) (hnodup : (m.map Prod.fst).Nodup)
    (hcond : mmLookup acc id = none ∨
      ∃ e, mmLookup acc id = some e ∧
        (md.color ≠ e.color ∨ md.visible ≠ e.visible ∨ md.opacity ≠ e.opacity)) :
    (updateMetadataLoop acc b m).2 = true := by
  induction m generalizing acc b with
  | nil => simp at hmem
  | cons p rest ih =>
    obtain ⟨k, w⟩ := p
    rcases List.mem_cons.mp hmem with heq | hrest
    · have hid : id = k := congrArg Prod.fst heq
      have hmd : md = w := congrArg Prod.snd heq
      subst hid
      subst hmd
      simp only [updateMetadataLoop]
      rcases hcond with hnone | ⟨e, he, hch⟩
      · rw [hnone]
        simp only [Bool.or_true]
        exact updateMetadataLoop_snd_true _ _
      · rw [he]
        have hbool : (md.color != e.color || md.visible != e.visible ||
            md.opacity != e.opacity) = true := by
          rcases hch with h | h | h <;> simp [bne_iff_ne, h]
        simp only [hbool, Bool.or_true]
        exact updateMetadataLoop_snd_true _ _
    · have hkid : k ≠ id := by
        intro hk
        subst hk
        have : k ∈ rest.map Prod.fst := List.mem_map.mpr ⟨(k, md), hrest, rfl⟩
        exact (List.nodup_cons.mp hnodup).1 this
      simp only [updateMetadataLoop]
      refine ih _ _ hrest (List.nodup_cons.mp hnodup).2 ?_
      rw [mmLookup_mmInsert, if_neg hkid]
      exact hcond

theorem updateMetadataLoop_snd_of_unchanged (m : List (String × DataSeriesMetadata))
    (acc : DataSeriesMetadataMap) (b : Bool)
    (hall : ∀ p ∈ m, ∃ e, mmLookup acc p.1 = some e ∧
      p.2.color = e.color ∧ p.2.visible = e.visible ∧ p.2.opacity = e.opacity)
    (hnodup : (m.map Prod.fst).Nodup) :
    (updateMetadataLoop acc b m).2 = b := by
  induction m generalizing acc b with
  | nil => rfl
  | cons p rest ih =>
    obtain ⟨k, w⟩ := p
    obtain ⟨e, he, hc, hv, ho⟩ := hall (k, w) (List.mem_cons_self _ _)
    have hc' : w.color = e.color := hc
    have hv' : w.visible = e.visible := hv
    have ho' : w.opacity = e.opacity := ho
    simp only [updateMetadataLoop]
    rw [he]
    simp only [hc', hv', ho', bne_self_eq_false, Bool.or_false, Bool.or_self]
    refine ih _ _ ?_ (List.nodup_cons.mp hnodup).2
    intro q hq
    obtain ⟨e', he', rest'⟩ := hall q (List.mem_cons_of_mem _ hq)
    have hkq : k ≠ q.1 := by
      intro hk
      have : k ∈ rest.map Prod.fst := hk ▸ List.mem_map.mpr ⟨q, hq, rfl⟩
      exact (List.nodup_cons.mp hnodup).1 this
    exact ⟨e', by rw [mmLookup_mmInsert, if_neg hkq]; exact he', rest'⟩

/-- C5: `updateMetadata` merges the argument map's entries into the chart's
internal map (the value an id holds afterwards is its last entry in the
argument, else its prior value), marks the series view paint-dirty whenever
an entry changed its color, visibility or opacity versus its prior value,
and schedules a redraw in all cases. -/
theorem updateMetadata_merges_marks_dirty_schedules (s : ChartState)
    (m : DataSeriesMetadataMap) (hnodup : keysNodup m) :
    (updateMetadata m s).shouldRedraw = true ∧
      (∀ id, mmLookup (updateMetadata m s).metadataMap id =
        match mmLookupLast m id with
        | some v => some v
        | none => mmLookup s.metadataMap id) ∧
      (∀ id md e, (id, md) ∈ m → mmLookup s.metadataMap id = some e →
        (md.color ≠ e.color ∨ md.visible ≠ e.visible ∨ md.opacity ≠ e.opacity) →
        (updateMetadata m s).paintDirty = true) := by
  refine ⟨?_, ?_, ?_⟩
  · simp [updateMetadata, scheduleRedraw_eq]
  · intro id
    have : (updateMetadata m s).metadataMap = (updateMetadataLoop s.metadataMap false m).1 := by
      simp [updateMetadata, scheduleRedraw_eq]
    rw [this, updateMetadataLoop_fst_lookup]
  · intro id md e hmem hlook hch
    have hsnd : (updateMetadataLoop s.metadataMap false m).2 = true :=
      updateMetadataLoop_snd_of_changed m s.metadataMap false id md hmem hnodup
        (.inr ⟨e, hlook, hch⟩)
    simp [updateMetadata, scheduleRedraw_eq, hsnd]

/-- Chart fixture whose internal metadata map holds one entry for `"a"`. -/
def chartA : ChartState := { chart0 with metadataMap := [("a", mdA)] }

/-- Same as `mdA` but with a different color. -/
def mdA2 : DataSeriesMetadata := ⟨"a", "alpha", true, "#00f", 1⟩

/-- Same as `mdA` but with a different display name only. -/
def mdA3 : DataSeriesMetadata := ⟨"a", "ALPHA", true, "#f00", 1⟩

/-- Metadata under an id the chart has never seen. -/
def mdB : DataSeriesMetadata := ⟨"b", "beta", false, "#0f0", 1 / 2⟩

/-- Witness for C5 at a concrete input: a color change on an existing entry. -/
theorem updateMetadata_merges_marks_dirty_schedules_witness :
    (updateMetadata [("a", mdA2)] chartA).shouldRedraw = true ∧
      (mmLookup (updateMetadata [("a", mdA2)] chartA).metadataMap "a" =
        match mmLookupLast [("a", mdA2)] "a" with
        | some v => some v
        | none => mmLookup chartA.metadataMap "a") ∧
      (updateMetadata [("a", mdA2)] chartA).paintDirty = true :=
  ⟨(updateMetadata_merges_marks_dirty_schedules chartA [("a", mdA2)] (by decide)).1,
    (updateMetadata_merges_marks_dirty_schedules chartA [("a", mdA2)] (by decide)).2.1 "a",
    (updateMetadata_merges_marks_dirty_schedules chartA [("a", mdA2)] (by decide)).2.2
      "a" mdA2 mdA (List.mem_singleton.mpr rfl) (by decide) (by decide)⟩

/-- C10 (implicit): `updateMetadata` marks the series view paint-dirty for a
brand-new id (no prior entry), while an entry differing from its prior
value only in `displayName` leaves the paint-dirty flag exactly as it was. -/
theorem updateMetadata_new_id_dirty_displayName_not (s : ChartState)
    (m : DataSeriesMetadataMap) (hnodup : keysNodup m) :
    (∀ id md, (id, md) ∈ m → mmLookup s.metadataMap id = none →
        (updateMetadata m s).paintDirty = true) ∧
      ((∀ p ∈ m, ∃ e, mmLookup s.metadataMap p.1 = some e ∧
          p.2.color = e.color ∧ p.2.visible = e.visible ∧ p.2.opacity = e.opacity) →
        (updateMetadata m s).paintDirty = s.paintDirty) := by
  constructor
  · intro id md hmem hnone
    have hsnd : (updateMetadataLoop s.metadataMap false m).2 = true :=
      updateMetadataLoop_snd_of_changed m s.metadataMap false id md hmem hnodup (.inl hnone)
    simp [updateMetadata, scheduleRedraw_eq, hsnd]
  · intro hall
    have hsnd : (updateMetadataLoop s.metadataMap false m).2 = false :=
      updateMetadataLoop_snd_of_unchanged m s.metadataMap false hall hnodup
    simp [updateMetadata, scheduleRedraw_eq, hsnd]

/-- Witness for C10 at concrete inputs: a brand-new id marks paint-dirty; a
`displayName`-only change leaves the flag untouched. -/
theorem updateMetadata_new_id_dirty_displayName_not_witness :
    (updateMetadata [("b", mdB)] chartA).paintDirty = true ∧
      (updateMetadata [("a", mdA3)] chartA).paintDirty = chartA.paintDirty :=
  ⟨(updateMetadata_new_id_dirty_displayName_not chartA [("b", mdB)] (by decide)).1
      "b" mdB (List.mem_singleton.mpr rfl) (by decide),
    (updateMetadata_new_id_dirty_displayName_not chartA [("a", mdA3)] (by decide)).2
      (by
        intro p hp
        simp only [List.mem_singleton] at hp
        subst hp
        exact ⟨mdA, rfl, rfl, rfl, rfl⟩)⟩

/-! ## niceDomain lemmas -/

theorem niceDomainLinear_eq (e : ℚ × ℚ) :
    niceDomainLinear e =
      if (⌊e.1⌋ : ℤ) = ⌈e.2⌉ then (((⌊e.1⌋ : ℤ) : ℚ) - 1, ((⌈e.2⌉ : ℤ) : ℚ) + 1)
      else (((⌊e.1⌋ : ℤ) : ℚ), ((⌈e.2⌉ : ℤ) : ℚ)) := by
  unfold niceDomainLinear
  by_cases h : (⌊e.1⌋ : ℤ) = ⌈e.2⌉
  · simp [h]
  · rw [if_neg (by exact_mod_cast h), if_neg h]

theorem niceDomainLinear_int (a b : ℤ) :
    niceDomainLinear ((a : ℚ), (b : ℚ)) =
      if a = b then ((a : ℚ) - 1, (b : ℚ) + 1) else ((a : ℚ), (b : ℚ)) := by
  unfold niceDomainLinear
  simp only [Int.floor_intCast, Int.ceil_intCast]
  by_cases h : a = b
  · simp [h]
  · rw [if_neg (by exact_mod_cast h), if_neg h]

theorem niceDomainLinear_idem (e : ℚ × ℚ) :
    niceDomainLinear (niceDomainLinear e) = niceDomainLinear e := by
  rw [niceDomainLinear_eq e]
  by_cases h : (⌊e.1⌋ : ℤ) = ⌈e.2⌉
  · rw [if_pos h]
    have e1 : ((⌊e.1⌋ : ℤ) : ℚ) - 1 = ((⌊e.1⌋ - 1 : ℤ) : ℚ) := by push_cast; ring
    have e2 : ((⌈e.2⌉ : ℤ) : ℚ) + 1 = ((⌈e.2⌉ + 1 : ℤ) : ℚ) := by push_cast; ring
    rw [e1, e2, niceDomainLinear_int, if_neg (by omega)]
  · rw [if_neg h, niceDomainLinear_int, if_neg h]

theorem log10_zpow (z : ℤ) : Int.log 10 ((10 : ℚ) ^ z) = z := by
  have h := Int.log_zpow (R := ℚ) (b := 10) (by norm_num) z
  simpa using h

theorem clog10_zpow (z : ℤ) : Int.clog 10 ((10 : ℚ) ^ z) = z := by
  have h := Int.clog_zpow (R := ℚ) (b := 10) (by norm_num) z
  simpa using h

theorem niceDomainLog10_pow (z w : ℤ) :
    niceDomainLog10 ((10 : ℚ) ^ z, (10 : ℚ) ^ w) =
      if (10 : ℚ) ^ z = (10 : ℚ) ^ w then ((10 : ℚ) ^ z / 10, (10 : ℚ) ^ w * 10)
      else ((10 : ℚ) ^ z, (10 : ℚ) ^ w) := by
  unfold niceDomainLog10
  rw [if_pos (show (0 : ℚ) < ((10 : ℚ) ^ z, (10 : ℚ) ^ w).1 from zpow_pos (by norm_num) z)]
  simp [log10_zpow, clog10_zpow]

theorem niceDomainLog10_idem (e : ℚ × ℚ) :
    niceDomainLog10 (niceDomainLog10 e) = niceDomainLog10 e := by
  by_cases hpos : 0 < e.1
  · have heq : niceDomainLog10 e =
        if (10 : ℚ) ^ (Int.log 10 e.1) = (10 : ℚ) ^ (Int.clog 10 e.2) then
          ((10 : ℚ) ^ (Int.log 10 e.1) / 10, (10 : ℚ) ^ (Int.clog 10 e.2) * 10)
        else ((10 : ℚ) ^ (Int.log 10 e.1), (10 : ℚ) ^ (Int.clog 10 e.2)) := by
      unfold niceDomainLog10
      rw [if_pos hpos]
    rw [heq]
    by_cases hc : (10 : ℚ) ^ (Int.log 10 e.1) = (10 : ℚ) ^ (Int.clog 10 e.2)
    · rw [if_pos hc]
      have hab : Int.log 10 e.1 = Int.clog 10 e.2 := by
        have h := congrArg (Int.log 10) hc
        rwa [log10_zpow, log10_zpow] at h
      have d1 : (10 : ℚ) ^ (Int.log 10 e.1) / 10 = (10 : ℚ) ^ (Int.log 10 e.1 - 1) := by
        rw [zpow_sub_one₀ (by norm_num), div_eq_mul_inv]
      have d2 : (10 : ℚ) ^ (Int.clog 10 e.2) * 10 = (10 : ℚ) ^ (Int.clog 10 e.2 + 1) := by
        rw [zpow_add_one₀ (by norm_num)]
      rw [d1, d2, niceDomainLog10_pow]
      rw [if_neg (by
        intro habs
        have h := congrArg (Int.log 10) habs
        rw [log10_zpow, log10_zpow] at h
        omega)]
    · rw [if_neg hc, niceDomainLog10_pow, if_neg hc]
  · have heq : niceDomainLog10 e = e := by
      unfold niceDomainLog10
      rw [if_neg hpos]
    rw [heq, heq]

/-- C9: for every valid extent (`min ≤ max`) and every scale variant
selected by the scale-type enum, `niceDomain` is idempotent. -/
theorem niceDomain_idempotent (t : ScaleType) (e : ℚ × ℚ) (h : e.1 ≤ e.2) :
    niceDomain t (niceDomain t e) = niceDomain t e := by
  cases t
  · exact niceDomainLinear_idem e
  · exact niceDomainLog10_idem e

/-- Witness for C9 at a concrete input. -/
theorem niceDomain_idempotent_witness :
    ((1 : ℚ) / 2 ≤ (5 : ℚ) / 2) ∧
      niceDomain .LINEAR (niceDomain .LINEAR ((1 : ℚ) / 2, (5 : ℚ) / 2)) =
        niceDomain .LINEAR ((1 : ℚ) / 2, (5 : ℚ) / 2) :=
  ⟨by norm_num, niceDomain_idempotent .LINEAR ((1 : ℚ) / 2, (5 : ℚ) / 2) (by norm_num)⟩

/-- C7: the view-box default resolved by the host component obeys the
precedence: an explicit caller-supplied `defaultViewExtent` always wins;
with no default, the data extent pushed through each axis's `niceDomain`;
with no data, the fixed unit extent `{x:[0,1], y:[0,1]}`. -/
theorem default_view_extent_precedence (dve d : Extent) (t u : ScaleType) :
    (∀ de : Option Extent, getDefaultViewExtent (some dve) de t u = dve) ∧
      getDefaultViewExtent none none t u = DEFAULT_EXTENT ∧
      DEFAULT_EXTENT = ⟨(0, 1), (0, 1)⟩ ∧
      getDefaultViewExtent none (some d) t u = ⟨niceDomain t d.x, niceDomain u d.y⟩ :=
  ⟨fun _ => rfl, rfl, rfl, rfl⟩

/-! ## View-box preservation lemmas -/

theorem updateMetadata_viewBox (m : DataSeriesMetadataMap) (cs : ChartState) :
    (updateMetadata m cs).viewBox = cs.viewBox := by
  simp [updateMetadata, scheduleRedraw_eq]

theorem updateData_viewBox (d : List DataSeries) (cs : ChartState) :
    (updateData d cs).viewBox = cs.viewBox := by
  simp [updateData, scheduleRedraw_eq]

theorem updatePropMeta_fields (s : ComponentState) :
    (updatePropMeta s).viewExtent = s.viewExtent ∧
      (updatePropMeta s).isDefaultViewExtentUpdated = s.isDefaultViewExtentUpdated ∧
      (updatePropMeta s).isViewExtentUpdated = s.isViewExtentUpdated ∧
      (updatePropMeta s).maybeSetViewExtentToDefault = s.maybeSetViewExtentToDefault ∧
      (updatePropMeta s).defaultViewExtent = s.defaultViewExtent ∧
      (updatePropMeta s).lineChart.viewBox = s.lineChart.viewBox := by
  unfold updatePropMeta
  split <;> simp [updateMetadata_viewBox]

theorem updatePropData_fields (s : ComponentState) :
    (updatePropData s).viewExtent = s.viewExtent ∧
      (updatePropData s).isDefaultViewExtentUpdated = s.isDefaultViewExtentUpdated ∧
      (updatePropData s).isViewExtentUpdated = s.isViewExtentUpdated ∧
      (updatePropData s).maybeSetViewExtentToDefault = s.maybeSetViewExtentToDefault ∧
      (updatePropData s).defaultViewExtent = s.defaultViewExtent ∧
      (updatePropData s).lineChart.viewBox = s.lineChart.viewBox := by
  unfold updatePropData
  split <;> simp [updateData_viewBox]

theorem updateProp_of_no_view_change (s : ComponentState)
    (h1 : s.isDefaultViewExtentUpdated = false)
    (h2 : s.isViewExtentUpdated = false)
    (h3 : s.maybeSetViewExtentToDefault = false) :
    (updateProp s).viewExtent = s.viewExtent ∧
      (updateProp s).lineChart.viewBox = s.lineChart.viewBox := by
  obtain ⟨m1, m2, m3, m4, m5, m6⟩ := updatePropMeta_fields s
  obtain ⟨d1, d2, d3, d4, d5, d6⟩ := updatePropData_fields (updatePropMeta s)
  have f1 : (updatePropData (updatePropMeta s)).isDefaultViewExtentUpdated = false := by
    rw [d2, m2, h1]
  have f2 : (updatePropData (updatePropMeta s)).isViewExtentUpdated = false := by
    rw [d3, m3, h2]
  have f3 : (updatePropData (updatePropMeta s)).maybeSetViewExtentToDefault = false := by
    rw [d4, m4, h3]
  have fv : (updatePropData (updatePropMeta s)).viewExtent = s.viewExtent := by
    rw [d1, m1]
  have fb : (updatePropData (updatePropMeta s)).lineChart.viewBox = s.lineChart.viewBox := by
    rw [d6, m6]
  unfold updateProp
  simp only [f1, f2, f3]
  simp [fv, fb]

theorem shouldResetViewExtent_of_panned (c : SimpleChanges)
    (prevMeta : DataSeriesMetadataMap) (s : ComponentState)
    (hx : c.xScaleType = none) (hy : c.yScaleType = none)
    (hpan : getDefaultViewExtentC s ≠ s.viewExtent) :
    shouldResetViewExtent c prevMeta s = false := by
  have hneq : areExtentsEqual (getDefaultViewExtentC s) s.viewExtent = false := by
    simp only [areExtentsEqual, beq_eq_false_iff_ne, ne_eq]
    exact hpan
  unfold shouldResetViewExtent
  rw [hx, hy]
  simp [hneq]

theorem ngOnChangesPre_fields (c : SimpleChanges) (s : ComponentState)
    (hx : c.xScaleType = none) (hy : c.yScaleType = none)
    (hd : c.defaultViewExtent = none) :
    (ngOnChangesPre c s).viewExtent = s.viewExtent ∧
      (ngOnChangesPre c s).defaultViewExtent = s.defaultViewExtent ∧
      (ngOnChangesPre c s).dataExtent = s.dataExtent ∧
      (ngOnChangesPre c s).xScaleType = s.xScaleType ∧
      (ngOnChangesPre c s).yScaleType = s.yScaleType ∧
      (ngOnChangesPre c s).isViewExtentUpdated = s.isViewExtentUpdated ∧
      (ngOnChangesPre c s).isDefaultViewExtentUpdated = s.isDefaultViewExtentUpdated ∧
      (ngOnChangesPre c s).lineChart = s.lineChart := by
  refine ⟨?_, ?_, ?_, ?_, ?_, ?_, ?_, ?_⟩ <;>
    (simp only [ngOnChangesPre, applyInputs, hx, hy, hd]
     split <;> split <;> split <;> simp_all)

/-- C8: a view box the user has manually changed (pan/zoom, leaving it
different from the resolved default) is never silently overwritten by a
scale-unrelated update carrying no `defaultViewExtent` change: under such
an `ngOnChanges` (any combination of data and metadata changes) the
component's view extent and the chart's view-box rect are unchanged — in
particular after a manual pan, an update touching only a color preserves
the view box. -/
theorem manual_view_box_never_overwritten (s : ComponentState)
    (sd : Option (List DataSeries)) (mm : Option DataSeriesMetadataMap)
    (h1 : s.isViewExtentUpdated = false)
    (h2 : s.isDefaultViewExtentUpdated = false)
    (hpan : getDefaultViewExtentC s ≠ s.viewExtent) :
    (ngOnChanges ⟨none, none, sd, none, mm⟩ s).viewExtent = s.viewExtent ∧
      (ngOnChanges ⟨none, none, sd, none, mm⟩ s).lineChart.viewBox =
        s.lineChart.viewBox := by
  obtain ⟨p1, p2, p3, p4, p5, p6, p7, p8⟩ :=
    ngOnChangesPre_fields ⟨none, none, sd, none, mm⟩ s rfl rfl rfl
  have hpan' :
      getDefaultViewExtentC (ngOnChangesPre ⟨none, none, sd, none, mm⟩ s) ≠
        (ngOnChangesPre ⟨none, none, sd, none, mm⟩ s).viewExtent := by
    unfold getDefaultViewExtentC
    rw [p1, p2, p3, p4, p5]
    exact hpan
  have hreset :
      shouldResetViewExtent ⟨none, none, sd, none, mm⟩ s.seriesMetadataMap
        (ngOnChangesPre ⟨none, none, sd, none, mm⟩ s) = false :=
    shouldResetViewExtent_of_panned _ _ _ rfl rfl hpan'
  obtain ⟨u1, u2⟩ :=
    updateProp_of_no_view_change
      { ngOnChangesPre ⟨none, none, sd, none, mm⟩ s with
        maybeSetViewExtentToDefault :=
          shouldResetViewExtent ⟨none, none, sd, none, mm⟩ s.seriesMetadataMap
            (ngOnChangesPre ⟨none, none, sd, none, mm⟩ s) }
      (p7.trans h2) (p6.trans h1) hreset
  exact ⟨u1.trans p1, u2.trans (congrArg ChartState.viewBox p8)⟩

/-- A component whose user has panned the view box away from the resolved
default. -/
def comp0 : ComponentState :=
  { seriesData := [seriesA]
    seriesMetadataMap := [("a", mdA)]
    defaultViewExtent := none
    xScaleType := .LINEAR
    yScaleType := .LINEAR
    viewExtent := ⟨(-3, 7), (-2, 8)⟩
    dataExtent := some ⟨(0, 1), (0, 1)⟩
    isDataUpdated := false
    isMetadataUpdated := false
    isViewExtentUpdated := false
    isDefaultViewExtentUpdated := false
    maybeSetViewExtentToDefault := false
    lineChart := chartA }

/-- Witness for C8 at a concrete input: after a manual pan, a metadata-only
change touching only a color leaves the view box unchanged. -/
theorem manual_view_box_never_overwritten_witness :
    (ngOnChanges ⟨none, none, none, none, some [("a", mdA2)]⟩ comp0).viewExtent =
        comp0.viewExtent ∧
      (ngOnChanges ⟨none, none, none, none, some [("a", mdA2)]⟩ comp0).lineChart.viewBox =
        comp0.lineChart.viewBox :=
  manual_view_box_never_overwritten comp0 none (some [("a", mdA2)]) rfl rfl (by decide)

end LineChartV2
